import Mathlib

/-!
Shallow embedding of the simulation core of `src/main.ino` (ESP32 mini
ping-pong game).  Float-valued globals (`paddleX`, ball position/velocity)
are modelled over `ℚ`; the millisecond clock `millis()` is a `Nat`
parameter supplied to each tick; the unsigned 16-bit counters keep their
wrap-around (`% 65536`) where the source stores into a `uint16_t`.
Side effects (audio cues played with `tone()`, the NVS write
`prefs.putUShort`) are modelled as an explicit effect list returned by
each step.  The pseudo-random draw `random(0, 2)` in `resetBall` is
modelled by a boolean input `coin` (`coin = true` corresponds to
`random(0, 2) == 0`).
-/

namespace MiniPong

/-- `SCREEN_WIDTH` (main.ino line 28). -/
def SCREEN_WIDTH : ℚ := 128

/-- `SCREEN_HEIGHT` (main.ino line 29). -/
def SCREEN_HEIGHT : ℚ := 64

/-- `paddleWidth` (main.ino line 46). -/
def paddleWidth : ℚ := 24

/-- `paddleHeight` (main.ino line 47). -/
def paddleHeight : ℚ := 4

/-- `paddleY = SCREEN_HEIGHT - paddleHeight - 1` (main.ino line 48). -/
def paddleY : ℚ := SCREEN_HEIGHT - paddleHeight - 1

/-- `paddleSpeed = 5.2f` (main.ino line 49). -/
def paddleSpeed : ℚ := 26/5

/-- `ballR` (main.ino line 54). -/
def ballR : ℚ := 2

/-- `SLOW_SEC` (main.ino line 57): seconds spent in the normal phase. -/
def SLOW_SEC : Nat := 20

/-- `FAST_SEC` (main.ino line 58): seconds spent in the fast phase. -/
def FAST_SEC : Nat := 5

/-- `FRAME_INTERVAL = 1000 / 60 = 16` ms (main.ino lines 64-65). -/
def FRAME_INTERVAL : Nat := 1000 / 60

/-- `BLINK_INTERVAL` (main.ino line 84). -/
def BLINK_INTERVAL : Nat := 500

/-- The `GameState` enum (main.ino line 38). -/
inductive GameState where
  | STATE_START
  | STATE_PLAYING
  | STATE_GAMEOVER
deriving DecidableEq, Repr

/-- Named audio cues, one per `sfx*` routine of main.ino lines 114-146. -/
inductive Cue where
  | paddleHit
  | wallBounce
  | losePoint
  | startFirst
  | party
deriving DecidableEq, Repr

/-- Observable side effects of a tick: an audio cue, or the NVS write
`prefs.putUShort("best", v)` (main.ino line 263). -/
inductive Effect where
  | cue (c : Cue)
  | storeBest (v : Nat)
deriving DecidableEq, Repr

/-- The ball globals `ballX, ballY, ballVX, ballVY` (main.ino lines 52-53). -/
structure Ball where
  x : ℚ
  y : ℚ
  vx : ℚ
  vy : ℚ
deriving DecidableEq, Repr

/-- The mutable globals of main.ino gathered in one record.  `holdT0` is the
`static uint32_t t0` inside `bothButtonsHeld` (line 152), which persists
across calls for the whole process lifetime. -/
structure Game where
  gameState : GameState
  score : Int
  paddleX : ℚ
  ball : Ball
  speedMultiplier : ℚ
  fastMode : Bool
  modeStartSec : Nat
  elapsedSec : Nat
  runStartMs : Nat
  lastSecondMs : Nat
  finalTimeCaptured : Bool
  finalElapsedSec : Nat
  bestTimeSec : Nat
  blinkOn : Bool
  lastBlinkMs : Nat
  hasPlayedFirstStartBeep : Bool
  holdT0 : Nat
  lastFrameMs : Nat
deriving DecidableEq, Repr

/-- Per-tick inputs.  `now` is the `millis()` sample taken at the top of
`loop()` (line 446); `now2` stands for the later `millis()` samples made
during the same tick (inside `captureFinalTimeAndUpdateBest`, after the
start-button release wait, or when re-arming the blink on restart); `left`
and `right` are true when the corresponding button reads LOW (pressed);
`coin` feeds `random(0, 2) == 0` should `resetBall` run this tick. -/
structure TickInput where
  now : Nat
  now2 : Nat
  left : Bool
  right : Bool
  coin : Bool
deriving DecidableEq, Repr

/-- `bothButtonsHeld` (main.ino lines 151-162) as a step on its static `t0`.
Returns the new `t0` and the boolean result.  The two `millis()` calls of
one invocation are modelled as the same sample `now`. -/
def bothButtonsHeldStep (msRequired : Nat) (l r : Bool) (now : Nat)
    (t0 : Nat) : Nat × Bool :=
  if l && r then
    let t0' := if t0 = 0 then now else t0
    (t0', decide (msRequired ≤ now - t0'))
  else
    (0, false)

/-- `resetBall` (main.ino lines 164-171).  `coin = true` stands for the
draw `random(0, 2) == 0`, which picks the leftward direction. -/
def resetBallState (coin : Bool) : Ball :=
  let s : ℚ := 17/10
  { x := SCREEN_WIDTH / 2
    y := SCREEN_HEIGHT / 3
    vx := if coin then -s else s
    vy := s }

/-- `setSpeedMode` (main.ino lines 174-178). -/
def setSpeedMode (fast : Bool) (g : Game) : Game :=
  { g with
    fastMode := fast
    speedMultiplier := if fast then 2 else 1
    modeStartSec := g.elapsedSec }

/-- `updateSpeedMode` (main.ino lines 180-187).  `elapsedInMode` is the
`uint16_t` difference `elapsedSec - modeStartSec`; both stored values are
below 65536, so the unsigned subtraction is `(a + 65536 - b) % 65536`. -/
def updateSpeedMode (g : Game) : Game :=
  let elapsedInMode := (g.elapsedSec + 65536 - g.modeStartSec) % 65536
  if g.fastMode then
    if FAST_SEC ≤ elapsedInMode then setSpeedMode false g else g
  else
    if SLOW_SEC ≤ elapsedInMode then setSpeedMode true g else g

/-- `resetGameRuntime` (main.ino lines 189-199); `now` is `millis()`. -/
def resetGameRuntime (now : Nat) (g : Game) : Game :=
  let g1 := { g with runStartMs := now, lastSecondMs := now, elapsedSec := 0 }
  let g2 := setSpeedMode false g1
  { g2 with finalTimeCaptured := false, finalElapsedSec := 0 }

/-- `resetGame` (main.ino lines 201-206). -/
def resetGame (now : Nat) (coin : Bool) (g : Game) : Game :=
  resetGameRuntime now
    { g with
      score := 10
      paddleX := (SCREEN_WIDTH - paddleWidth) / 2
      ball := resetBallState coin }

/-- Decimal digits of `k` as `%u` renders them (e.g. `100 ↦ ['1','0','0']`). -/
def decChars (k : Nat) : List Char := Nat.toDigits 10 k

/-- The field `%02u`: the decimal rendering of `k`, zero-padded on the left
to at least two characters. -/
def pad2 (k : Nat) : List Char :=
  if k < 10 then '0' :: decChars k else decChars k

/-- The full `"%02u:%02u"` rendering of `(secs / 60, secs % 60)`. -/
def mmssChars (secs : Nat) : List Char :=
  pad2 (secs / 60) ++ ':' :: pad2 (secs % 60)

/-- `formatTimeMMSS` (main.ino lines 208-213).  The returned value is the
content the function leaves in the buffer: `none` when `n = 0` (the buffer
is not touched at all), the empty string when `0 < n < 6`, and otherwise
the `snprintf` output, i.e. the rendering truncated to at most `n - 1`
characters. -/
def formatTimeMMSS (secs : Nat) (n : Nat) : Option (List Char) :=
  if 6 ≤ n then some ((mmssChars secs).take (n - 1))
  else if 0 < n then some []
  else none

/-- `handleButtonsPaddle` (main.ino lines 249-254). -/
def handleButtonsPaddle (l r : Bool) (g : Game) : Game :=
  let p0 := g.paddleX
  let p1 := if l then p0 - paddleSpeed else p0
  let p2 := if r then p1 + paddleSpeed else p1
  let p3 := if p2 < 0 then 0 else p2
  let p4 := if SCREEN_WIDTH - paddleWidth < p3 then SCREEN_WIDTH - paddleWidth else p3
  { g with paddleX := p4 }

/-- Elapsed seconds as `captureFinalTimeAndUpdateBest` computes them:
`(uint16_t)((now - runStartMs) / 1000UL)` (main.ino line 259). -/
def finalSecsAt (now runStartMs : Nat) : Nat :=
  ((now - runStartMs) / 1000) % 65536

/-- `captureFinalTimeAndUpdateBest` (main.ino lines 256-267); `now` is the
`millis()` sample of line 258.  Returns the new state and the effects
(the NVS write and the celebration cue, when the best is beaten). -/
def captureFinalTimeAndUpdateBest (now : Nat) (g : Game) : Game × List Effect :=
  if g.finalTimeCaptured then
    (g, [])
  else if g.bestTimeSec < finalSecsAt now g.runStartMs then
    ({ g with
        finalElapsedSec := finalSecsAt now g.runStartMs
        finalTimeCaptured := true
        bestTimeSec := finalSecsAt now g.runStartMs },
      [Effect.storeBest (finalSecsAt now g.runStartMs), Effect.cue Cue.party])
  else
    ({ g with
        finalElapsedSec := finalSecsAt now g.runStartMs
        finalTimeCaptured := true }, [])

/-- `fabs` as called on the float velocities (main.ino lines 277, 281,
288, 298). -/
def fabs (x : ℚ) : ℚ := if x < 0 then -x else x

/-- Ball displacement, main.ino lines 271-272. -/
def moveBall (mult : ℚ) (b : Ball) : Ball :=
  { b with x := b.x + b.vx * mult, y := b.y + b.vy * mult }

/-- Side-wall handling, main.ino lines 275-283 (`if / else if`, so at most
one of the two vertical walls acts per tick).  The boolean is true when
`sfxWallBounce()` is played. -/
def sideWallBounce (b : Ball) : Ball × Bool :=
  if b.x - ballR ≤ 0 then
    ({ b with x := ballR, vx := fabs b.vx }, true)
  else if SCREEN_WIDTH ≤ b.x + ballR then
    ({ b with x := SCREEN_WIDTH - ballR, vx := -fabs b.vx }, true)
  else
    (b, false)

/-- Ceiling handling, main.ino lines 286-290. -/
def ceilingBounce (b : Ball) : Ball × Bool :=
  if b.y - ballR ≤ 0 then
    ({ b with y := ballR, vy := fabs b.vy }, true)
  else
    (b, false)

/-- Outcome of the paddle/floor check of main.ino lines 293-324. -/
inductive HitOutcome where
  | nothing
  | hitPaddle
  | lostPoint
deriving DecidableEq, Repr

/-- Paddle-plane handling, main.ino lines 293-311 (the pure part: the ball
update and which branch is taken; the score/game-over consequences live in
`updateBall`). -/
def paddleZone (px : ℚ) (b : Ball) : Ball × HitOutcome :=
  if 0 < b.vy ∧ paddleY ≤ b.y + ballR then
    if px ≤ b.x ∧ b.x ≤ px + paddleWidth then
      let cx := px + paddleWidth / 2
      let offset := (b.x - cx) / (paddleWidth / 2)
      let maxVX : ℚ := 14/5
      let v1 := b.vx + offset * (4/5)
      let v2 := if maxVX < v1 then maxVX else v1
      let v3 := if v2 < -maxVX then -maxVX else v2
      let acc : ℚ := 26/25
      ({ b with
          y := paddleY - ballR
          vx := v3 * acc
          vy := -fabs b.vy * acc }, HitOutcome.hitPaddle)
    else
      (b, HitOutcome.lostPoint)
  else
    (b, HitOutcome.nothing)

/-- The ball after the displacement of lines 271-272. -/
def movedBall (g : Game) : Ball := moveBall g.speedMultiplier g.ball

/-- The side-wall stage applied to the moved ball. -/
def sideRes (g : Game) : Ball × Bool := sideWallBounce (movedBall g)

/-- The ceiling stage applied after the side walls. -/
def ceilRes (g : Game) : Ball × Bool := ceilingBounce (sideRes g).1

/-- The paddle-plane stage applied after walls and ceiling. -/
def paddleRes (g : Game) : Ball × HitOutcome := paddleZone g.paddleX (ceilRes g).1

/-- True when this tick's `updateBall` takes the point-lost branch
(main.ino line 312). -/
def missedBall (g : Game) : Prop := (paddleRes g).2 = HitOutcome.lostPoint

instance (g : Game) : Decidable (missedBall g) := by
  unfold missedBall; infer_instance

/-- The wall-bounce cues of one `updateBall` call (each collision plays
`sfxWallBounce()` once, lines 278, 282, 289). -/
def wallCuesOf (g : Game) : List Effect :=
  (if (sideRes g).2 then [Effect.cue Cue.wallBounce] else []) ++
    (if (ceilRes g).2 then [Effect.cue Cue.wallBounce] else [])

/-- The state after the point-lost score decrement (lines 312-314). -/
def lostPointState (g : Game) : Game :=
  { g with ball := (paddleRes g).1, score := g.score - 1 }

/-- `updateBall` (main.ino lines 269-325); `nowCap` is the `millis()`
sample used inside `captureFinalTimeAndUpdateBest` should the run end,
`coin` the random draw used by `resetBall` should the point be lost with
lives remaining. -/
def updateBall (nowCap : Nat) (coin : Bool) (g : Game) : Game × List Effect :=
  match (paddleRes g).2 with
  | HitOutcome.nothing => ({ g with ball := (paddleRes g).1 }, wallCuesOf g)
  | HitOutcome.hitPaddle =>
      ({ g with ball := (paddleRes g).1 }, wallCuesOf g ++ [Effect.cue Cue.paddleHit])
  | HitOutcome.lostPoint =>
      if (lostPointState g).score ≤ 0 then
        ({ (captureFinalTimeAndUpdateBest nowCap (lostPointState g)).1 with
            gameState := GameState.STATE_GAMEOVER },
          wallCuesOf g ++ [Effect.cue Cue.losePoint] ++
            (captureFinalTimeAndUpdateBest nowCap (lostPointState g)).2)
      else
        ({ lostPointState g with ball := resetBallState coin },
          wallCuesOf g ++ [Effect.cue Cue.losePoint])

/-- The `STATE_START` branch of `loop()` (main.ino lines 454-471).  The
blocking wait for the start button release is modelled by performing the
run reset at the later time `i.now2`. -/
def stepStart (i : TickInput) (g : Game) : Game × List Effect :=
  let g1 :=
    if BLINK_INTERVAL ≤ i.now - g.lastBlinkMs then
      { g with blinkOn := !g.blinkOn, lastBlinkMs := i.now }
    else g
  if i.right then
    let beeped :=
      if g1.hasPlayedFirstStartBeep then (g1, ([] : List Effect))
      else ({ g1 with hasPlayedFirstStartBeep := true }, [Effect.cue Cue.startFirst])
    let g2 := resetGame i.now2 i.coin beeped.1
    ({ g2 with gameState := GameState.STATE_PLAYING }, beeped.2)
  else
    (g1, [])

/-- The `STATE_PLAYING` branch of `loop()` (main.ino lines 473-492):
whole-second accumulation (lines 475-479, with the `uint16_t` wrap of
`elapsedSec`), speed-mode update, paddle input, ball update. -/
def stepPlaying (i : TickInput) (g : Game) : Game × List Effect :=
  let g1 :=
    if 1000 ≤ i.now - g.lastSecondMs then
      let steps := (i.now - g.lastSecondMs) / 1000
      { g with
        elapsedSec := (g.elapsedSec + steps) % 65536
        lastSecondMs := g.lastSecondMs + steps * 1000 }
    else g
  let g2 := updateSpeedMode g1
  let g3 := handleButtonsPaddle i.left i.right g2
  updateBall i.now2 i.coin g3

/-- The `STATE_GAMEOVER` branch of `loop()` (main.ino lines 494-502). -/
def stepGameover (i : TickInput) (g : Game) : Game × List Effect :=
  if (bothButtonsHeldStep 800 i.left i.right i.now g.holdT0).2 then
    ({ g with
        holdT0 := (bothButtonsHeldStep 800 i.left i.right i.now g.holdT0).1
        gameState := GameState.STATE_START
        blinkOn := true
        lastBlinkMs := i.now2 }, [])
  else
    ({ g with holdT0 := (bothButtonsHeldStep 800 i.left i.right i.now g.holdT0).1 }, [])

/-- The state dispatch of `loop()` (main.ino lines 453-503). -/
def loopBody (i : TickInput) (g : Game) : Game × List Effect :=
  match g.gameState with
  | GameState.STATE_START => stepStart i g
  | GameState.STATE_PLAYING => stepPlaying i g
  | GameState.STATE_GAMEOVER => stepGameover i g

/-- One call of `loop()` (main.ino lines 445-504), including the frame
gate of lines 447-451. -/
def loopFn (i : TickInput) (g : Game) : Game × List Effect :=
  if i.now - g.lastFrameMs < FRAME_INTERVAL then
    (g, [])
  else
    loopBody i { g with lastFrameMs := i.now }

/-- The global state right after `setup()` (main.ino lines 414-443) on a
device whose NVS holds best time `best`, with `setup()` finishing at
millisecond `bootMs`: C++ zero-initialised globals plus the explicit
initialisers of lines 39-87 and 440-442. -/
def bootGame (best : Nat) (bootMs : Nat) : Game :=
  { gameState := GameState.STATE_START
    score := 10
    paddleX := 0
    ball := { x := 0, y := 0, vx := 0, vy := 0 }
    speedMultiplier := 1
    fastMode := false
    modeStartSec := 0
    elapsedSec := 0
    runStartMs := 0
    lastSecondMs := 0
    finalTimeCaptured := false
    finalElapsedSec := 0
    bestTimeSec := best
    blinkOn := true
    lastBlinkMs := bootMs
    hasPlayedFirstStartBeep := false
    holdT0 := 0
    lastFrameMs := 0 }

/-- Folding `loop()` over a list of tick inputs (states only). -/
def runTrace (g : Game) : List TickInput → Game
  | [] => g
  | i :: rest => runTrace (loopFn i g).1 rest

/-- The speed-modulator scenario of the spec: phase forced to NORMAL with
the phase marker at elapsed 0 (as `resetGameRuntime` does), then one
`updateSpeedMode` call per elapsed unit, the elapsed counter advancing by
one before each call. -/
def speedTrace (g : Game) : Nat → Game
  | 0 => setSpeedMode false { g with elapsedSec := 0 }
  | k + 1 => updateSpeedMode { speedTrace g k with elapsedSec := k + 1 }

/-- A concrete mid-run state: PLAYING with five lives and the ball about to
drop past the paddle (paddle parked at the left edge, ball on the right). -/
def gMiss : Game :=
  { gameState := GameState.STATE_PLAYING
    score := 5
    paddleX := 0
    ball := { x := 100, y := 56, vx := 17/10, vy := 17/10 }
    speedMultiplier := 1
    fastMode := false
    modeStartSec := 0
    elapsedSec := 3
    runStartMs := 1000
    lastSecondMs := 4000
    finalTimeCaptured := false
    finalElapsedSec := 0
    bestTimeSec := 0
    blinkOn := true
    lastBlinkMs := 0
    hasPlayedFirstStartBeep := true
    holdT0 := 0
    lastFrameMs := 4980 }

/-- The same situation on the last life: the tick that ends the run. -/
def gMissLast : Game := { gMiss with score := 1 }

/-- Sequences of the hold-tracker results that `bothButtonsHeld` returns
over consecutive calls (one per GAMEOVER tick), threading its static `t0`:
each sample is `(left, right, millis)`. -/
def holdResults (msRequired : Nat) : Nat → List (Bool × Bool × Nat) → List Bool
  | _, [] => []
  | t0, s :: rest =>
      (bothButtonsHeldStep msRequired s.1 s.2.1 s.2.2 t0).2 ::
        holdResults msRequired (bothButtonsHeldStep msRequired s.1 s.2.1 s.2.2 t0).1 rest

/-- A tick with both buttons released, repeated `n` times from time `t0`
at the 16 ms frame cadence. -/
def idleTicks (t0 n : Nat) : List TickInput :=
  (List.range n).map (fun k =>
    { now := t0 + 16 * k, now2 := t0 + 16 * k, left := false, right := false, coin := true })

/-- A single tick at time `t` with the given button levels. -/
def press (t : Nat) (l r : Bool) : TickInput :=
  { now := t, now2 := t, left := l, right := r, coin := true }

/-- Restart-hold counterexample trace, in chunks.  Chunk A starts run 1
(right button pressed at t = 1000). -/
def cexChunkA : List TickInput := [press 1000 false true]

/-- Chunks B1-B5: 210 idle frames during which run 1 loses its ten balls
and settles in GAMEOVER (each idle GAMEOVER tick samples released buttons,
so the hold tracker stays 0). -/
def cexChunkB1 : List TickInput := idleTicks 1016 42

def cexChunkB2 : List TickInput := idleTicks 1688 42

def cexChunkB3 : List TickInput := idleTicks 2360 42

def cexChunkB4 : List TickInput := idleTicks 3032 42

def cexChunkB5 : List TickInput := idleTicks 3704 42

/-- Chunk C: both buttons held at t = 4376 (arming the tracker) and still
held at t = 5276, a continuous 900 ms hold, so run 1 restarts
legitimately; the tracker is left at 4376. -/
def cexChunkC : List TickInput := [press 4376 true true, press 5276 true true]

/-- Chunk D: right button pressed at t = 5292 starts run 2. -/
def cexChunkD : List TickInput := [press 5292 false true]

/-- Chunks E1-E5: 210 idle frames; run 2 loses its ten balls with both
buttons released throughout, reaching GAMEOVER on the very last frame
(t = 8652), so no GAMEOVER tick has yet sampled the buttons. -/
def cexChunkE1 : List TickInput := idleTicks 5308 42

def cexChunkE2 : List TickInput := idleTicks 5980 42

def cexChunkE3 : List TickInput := idleTicks 6652 42

def cexChunkE4 : List TickInput := idleTicks 7324 42

def cexChunkE5 : List TickInput := idleTicks 7996 42

/-- The full counterexample trace before the final tap. -/
def cexPre : List TickInput :=
  cexChunkA ++ cexChunkB1 ++ cexChunkB2 ++ cexChunkB3 ++ cexChunkB4 ++ cexChunkB5 ++
    cexChunkC ++ cexChunkD ++
    cexChunkE1 ++ cexChunkE2 ++ cexChunkE3 ++ cexChunkE4 ++ cexChunkE5

/-- The final 16 ms tap: both buttons pressed for a single frame, 16 ms
after the previous (released) sample. -/
def cexTap : TickInput := press 8668 true true

/-- Game state along the counterexample trace, after chunk 1. -/
def cexS1 : Game :=
  { gameState := GameState.STATE_PLAYING, score := 10, paddleX := 52, ball := { x := 64, y := 64/3, vx := -17/10, vy := 17/10 }, speedMultiplier := 1, fastMode := false, modeStartSec := 0, elapsedSec := 0, runStartMs := 1000, lastSecondMs := 1000, finalTimeCaptured := false, finalElapsedSec := 0, bestTimeSec := 0, blinkOn := false, lastBlinkMs := 1000, hasPlayedFirstStartBeep := true, holdT0 := 0, lastFrameMs := 1000 }

/-- Game state along the counterexample trace, after chunk 2. -/
def cexS2 : Game :=
  { gameState := GameState.STATE_PLAYING, score := 8, paddleX := 52, ball := { x := 64, y := 64/3, vx := -17/10, vy := 17/10 }, speedMultiplier := 1, fastMode := false, modeStartSec := 0, elapsedSec := 0, runStartMs := 1000, lastSecondMs := 1000, finalTimeCaptured := false, finalElapsedSec := 0, bestTimeSec := 0, blinkOn := false, lastBlinkMs := 1000, hasPlayedFirstStartBeep := true, holdT0 := 0, lastFrameMs := 1672 }

/-- Game state along the counterexample trace, after chunk 3. -/
def cexS3 : Game :=
  { gameState := GameState.STATE_PLAYING, score := 6, paddleX := 52, ball := { x := 64, y := 64/3, vx := -17/10, vy := 17/10 }, speedMultiplier := 1, fastMode := false, modeStartSec := 0, elapsedSec := 1, runStartMs := 1000, lastSecondMs := 2000, finalTimeCaptured := false, finalElapsedSec := 0, bestTimeSec := 0, blinkOn := false, lastBlinkMs := 1000, hasPlayedFirstStartBeep := true, holdT0 := 0, lastFrameMs := 2344 }

/-- Game state along the counterexample trace, after chunk 4. -/
def cexS4 : Game :=
  { gameState := GameState.STATE_PLAYING, score := 4, paddleX := 52, ball := { x := 64, y := 64/3, vx := -17/10, vy := 17/10 }, speedMultiplier := 1, fastMode := false, modeStartSec := 0, elapsedSec := 2, runStartMs := 1000, lastSecondMs := 3000, finalTimeCaptured := false, finalElapsedSec := 0, bestTimeSec := 0, blinkOn := false, lastBlinkMs := 1000, hasPlayedFirstStartBeep := true, holdT0 := 0, lastFrameMs := 3016 }

/-- Game state along the counterexample trace, after chunk 5. -/
def cexS5 : Game :=
  { gameState := GameState.STATE_PLAYING, score := 2, paddleX := 52, ball := { x := 64, y := 64/3, vx := -17/10, vy := 17/10 }, speedMultiplier := 1, fastMode := false, modeStartSec := 0, elapsedSec := 2, runStartMs := 1000, lastSecondMs := 3000, finalTimeCaptured := false, finalElapsedSec := 0, bestTimeSec := 0, blinkOn := false, lastBlinkMs := 1000, hasPlayedFirstStartBeep := true, holdT0 := 0, lastFrameMs := 3688 }

/-- Game state along the counterexample trace, after chunk 6. -/
def cexS6 : Game :=
  { gameState := GameState.STATE_GAMEOVER, score := 0, paddleX := 52, ball := { x := 283/10, y := 1711/30, vx := -17/10, vy := 17/10 }, speedMultiplier := 1, fastMode := false, modeStartSec := 0, elapsedSec := 3, runStartMs := 1000, lastSecondMs := 4000, finalTimeCaptured := true, finalElapsedSec := 3, bestTimeSec := 3, blinkOn := false, lastBlinkMs := 1000, hasPlayedFirstStartBeep := true, holdT0 := 0, lastFrameMs := 4360 }

/-- Game state along the counterexample trace, after chunk 7. -/
def cexS7 : Game :=
  { gameState := GameState.STATE_START, score := 0, paddleX := 52, ball := { x := 283/10, y := 1711/30, vx := -17/10, vy := 17/10 }, speedMultiplier := 1, fastMode := false, modeStartSec := 0, elapsedSec := 3, runStartMs := 1000, lastSecondMs := 4000, finalTimeCaptured := true, finalElapsedSec := 3, bestTimeSec := 3, blinkOn := true, lastBlinkMs := 5276, hasPlayedFirstStartBeep := true, holdT0 := 4376, lastFrameMs := 5276 }

/-- Game state along the counterexample trace, after chunk 8. -/
def cexS8 : Game :=
  { gameState := GameState.STATE_PLAYING, score := 10, paddleX := 52, ball := { x := 64, y := 64/3, vx := -17/10, vy := 17/10 }, speedMultiplier := 1, fastMode := false, modeStartSec := 0, elapsedSec := 0, runStartMs := 5292, lastSecondMs := 5292, finalTimeCaptured := false, finalElapsedSec := 0, bestTimeSec := 3, blinkOn := true, lastBlinkMs := 5276, hasPlayedFirstStartBeep := true, holdT0 := 4376, lastFrameMs := 5292 }

/-- Game state along the counterexample trace, after chunk 9. -/
def cexS9 : Game :=
  { gameState := GameState.STATE_PLAYING, score := 8, paddleX := 52, ball := { x := 64, y := 64/3, vx := -17/10, vy := 17/10 }, speedMultiplier := 1, fastMode := false, modeStartSec := 0, elapsedSec := 0, runStartMs := 5292, lastSecondMs := 5292, finalTimeCaptured := false, finalElapsedSec := 0, bestTimeSec := 3, blinkOn := true, lastBlinkMs := 5276, hasPlayedFirstStartBeep := true, holdT0 := 4376, lastFrameMs := 5964 }

/-- Game state along the counterexample trace, after chunk 10. -/
def cexS10 : Game :=
  { gameState := GameState.STATE_PLAYING, score := 6, paddleX := 52, ball := { x := 64, y := 64/3, vx := -17/10, vy := 17/10 }, speedMultiplier := 1, fastMode := false, modeStartSec := 0, elapsedSec := 1, runStartMs := 5292, lastSecondMs := 6292, finalTimeCaptured := false, finalElapsedSec := 0, bestTimeSec := 3, blinkOn := true, lastBlinkMs := 5276, hasPlayedFirstStartBeep := true, holdT0 := 4376, lastFrameMs := 6636 }

/-- Game state along the counterexample trace, after chunk 11. -/
def cexS11 : Game :=
  { gameState := GameState.STATE_PLAYING, score := 4, paddleX := 52, ball := { x := 64, y := 64/3, vx := -17/10, vy := 17/10 }, speedMultiplier := 1, fastMode := false, modeStartSec := 0, elapsedSec := 2, runStartMs := 5292, lastSecondMs := 7292, finalTimeCaptured := false, finalElapsedSec := 0, bestTimeSec := 3, blinkOn := true, lastBlinkMs := 5276, hasPlayedFirstStartBeep := true, holdT0 := 4376, lastFrameMs := 7308 }

/-- Game state along the counterexample trace, after chunk 12. -/
def cexS12 : Game :=
  { gameState := GameState.STATE_PLAYING, score := 2, paddleX := 52, ball := { x := 64, y := 64/3, vx := -17/10, vy := 17/10 }, speedMultiplier := 1, fastMode := false, modeStartSec := 0, elapsedSec := 2, runStartMs := 5292, lastSecondMs := 7292, finalTimeCaptured := false, finalElapsedSec := 0, bestTimeSec := 3, blinkOn := true, lastBlinkMs := 5276, hasPlayedFirstStartBeep := true, holdT0 := 4376, lastFrameMs := 7980 }

/-- Game state along the counterexample trace, after chunk 13. -/
def cexS13 : Game :=
  { gameState := GameState.STATE_GAMEOVER, score := 0, paddleX := 52, ball := { x := 283/10, y := 1711/30, vx := -17/10, vy := 17/10 }, speedMultiplier := 1, fastMode := false, modeStartSec := 0, elapsedSec := 3, runStartMs := 5292, lastSecondMs := 8292, finalTimeCaptured := true, finalElapsedSec := 3, bestTimeSec := 3, blinkOn := true, lastBlinkMs := 5276, hasPlayedFirstStartBeep := true, holdT0 := 4376, lastFrameMs := 8652 }

-- ===================== theorems =====================

attribute [local semireducible] Rat.add Rat.mul Rat.inv Rat.sub

theorem capture_preserves (now : Nat) (g : Game) :
    (captureFinalTimeAndUpdateBest now g).1.score = g.score ∧
    (captureFinalTimeAndUpdateBest now g).1.gameState = g.gameState ∧
    (captureFinalTimeAndUpdateBest now g).1.runStartMs = g.runStartMs := by
  unfold captureFinalTimeAndUpdateBest
  split_ifs <;> simp

theorem loopBody_gameover_eq (i : TickInput) (g : Game)
    (h : g.gameState = GameState.STATE_GAMEOVER) :
    loopBody i g = stepGameover i g := by
  unfold loopBody
  rw [h]

/-- C9: on every PLAYING tick, after `handleButtonsPaddle` the paddle's
horizontal position lies within `[0, SCREEN_WIDTH - paddleWidth]`,
whatever the previous position and whichever buttons (possibly both) are
pressed. -/
theorem c9_paddle_clamped (g : Game) (l r : Bool) :
    0 ≤ (handleButtonsPaddle l r g).paddleX ∧
      (handleButtonsPaddle l r g).paddleX ≤ SCREEN_WIDTH - paddleWidth := by
  unfold handleButtonsPaddle
  dsimp only
  split_ifs <;>
    constructor <;>
    norm_num [SCREEN_WIDTH, paddleWidth] at * <;>
    linarith

/-- C8: `resetBall` seeds the ball at the fixed position
`(SCREEN_WIDTH/2, SCREEN_HEIGHT/3)` with base speed 1.7 on both axes, the
horizontal direction given by the one-in-two random draw and the vertical
direction downward (positive `vy`); it is invoked by `resetGame` (run
start) and by `updateBall` after a lost point that leaves the run
alive. -/
theorem c8_ball_recreated :
    (∀ coin, resetBallState coin =
      { x := 64, y := 64/3, vx := if coin then -(17/10) else 17/10, vy := 17/10 })
  ∧ (∀ coin, 0 < (resetBallState coin).vy)
  ∧ (∀ coin, fabs (resetBallState coin).vx = 17/10)
  ∧ ((resetBallState true).vx = -(resetBallState false).vx)
  ∧ (∀ now coin g, (resetGame now coin g).ball = resetBallState coin)
  ∧ (∀ nowCap coin g, missedBall g → 2 ≤ g.score →
      (updateBall nowCap coin g).1.ball = resetBallState coin) := by
  refine ⟨?_, ?_, ?_, ?_, ?_, ?_⟩
  · intro coin
    cases coin <;> norm_num [resetBallState, SCREEN_WIDTH, SCREEN_HEIGHT]
  · intro coin
    norm_num [resetBallState]
  · intro coin
    cases coin <;> norm_num [resetBallState, fabs]
  · norm_num [resetBallState]
  · intro now coin g
    simp [resetGame, resetGameRuntime, setSpeedMode]
  · intro nowCap coin g hm hs
    unfold missedBall at hm
    unfold updateBall
    split
    · next h => rw [hm] at h; exact HitOutcome.noConfusion h
    · next h => rw [hm] at h; exact HitOutcome.noConfusion h
    · rw [if_neg (by simp only [lostPointState]; omega)]

/-- C8 witness: a concrete lost point with lives remaining recreates the
ball at the seed state. -/
theorem c8_ball_recreated_witness :
    (updateBall 5000 true gMiss).1.ball = resetBallState true :=
  c8_ball_recreated.2.2.2.2.2 5000 true gMiss (by decide) (by decide)

/-- C2: the stored best only ever increases; `captureFinalTimeAndUpdateBest`
updates it (issuing exactly one `prefs.putUShort` store, of the new value)
precisely when the run's final elapsed time strictly exceeds the stored
value, leaves it unchanged with no store when the final time is equal or
below, is a no-op once the final time has been captured (so at most one
update and one store per run), and the captured flag is re-armed only by
the next run's reset. -/
theorem c2_best_record (g : Game) (now : Nat) :
    (g.finalTimeCaptured = false → g.bestTimeSec < finalSecsAt now g.runStartMs →
      captureFinalTimeAndUpdateBest now g =
        ({ g with finalElapsedSec := finalSecsAt now g.runStartMs,
                  finalTimeCaptured := true,
                  bestTimeSec := finalSecsAt now g.runStartMs },
         [Effect.storeBest (finalSecsAt now g.runStartMs), Effect.cue Cue.party]))
  ∧ (g.finalTimeCaptured = false → finalSecsAt now g.runStartMs ≤ g.bestTimeSec →
      captureFinalTimeAndUpdateBest now g =
        ({ g with finalElapsedSec := finalSecsAt now g.runStartMs,
                  finalTimeCaptured := true }, []))
  ∧ (g.finalTimeCaptured = true → captureFinalTimeAndUpdateBest now g = (g, []))
  ∧ (g.bestTimeSec ≤ (captureFinalTimeAndUpdateBest now g).1.bestTimeSec)
  ∧ (∀ n2 g2, (resetGameRuntime n2 g2).finalTimeCaptured = false) := by
  refine ⟨?_, ?_, ?_, ?_, ?_⟩
  · intro h1 h2
    unfold captureFinalTimeAndUpdateBest
    rw [h1]
    simp only [Bool.false_eq_true, if_false, if_pos h2]
  · intro h1 h2
    unfold captureFinalTimeAndUpdateBest
    rw [h1]
    simp only [Bool.false_eq_true, if_false, if_neg (not_lt.2 h2)]
  · intro h1
    unfold captureFinalTimeAndUpdateBest
    rw [h1]
    simp
  · unfold captureFinalTimeAndUpdateBest
    split_ifs with h1 h2 <;> simp <;> omega
  · intro n2 g2
    simp [resetGameRuntime, setSpeedMode]

/-- C2 witness: a first capture at 9 elapsed seconds against a stored best
of 5 updates the best and issues exactly one store of the new value. -/
theorem c2_best_record_witness :
    captureFinalTimeAndUpdateBest 10000 { gMiss with bestTimeSec := 5 } =
      ({ gMiss with bestTimeSec := 9, finalElapsedSec := 9, finalTimeCaptured := true },
        [Effect.storeBest 9, Effect.cue Cue.party]) := by
  have h := (c2_best_record { gMiss with bestTimeSec := 5 } 10000).1
    (by decide) (by decide)
  simpa [finalSecsAt, gMiss] using h

/-- C3: the final time is captured exactly once per run: the first call of
`captureFinalTimeAndUpdateBest` records the elapsed seconds of that
instant and latches the flag, any further call leaves the state untouched
(so running the GAMEOVER logic over several ticks cannot recapture),
GAMEOVER ticks never modify the recorded final time, the capture happens
on the very tick `updateBall` moves the run to GAMEOVER, and only the
next run's reset clears it. -/
theorem c3_final_time (g : Game) (now : Nat) :
    (g.finalTimeCaptured = false →
      (captureFinalTimeAndUpdateBest now g).1.finalElapsedSec =
          finalSecsAt now g.runStartMs ∧
        (captureFinalTimeAndUpdateBest now g).1.finalTimeCaptured = true)
  ∧ (g.finalTimeCaptured = true → (captureFinalTimeAndUpdateBest now g).1 = g)
  ∧ (∀ i, g.gameState = GameState.STATE_GAMEOVER →
      (loopFn i g).1.finalElapsedSec = g.finalElapsedSec)
  ∧ (∀ nowCap coin, g.gameState = GameState.STATE_PLAYING → missedBall g →
      g.score = 1 →
      (updateBall nowCap coin g).1.gameState = GameState.STATE_GAMEOVER ∧
        (g.finalTimeCaptured = false →
          (updateBall nowCap coin g).1.finalElapsedSec =
            finalSecsAt nowCap g.runStartMs))
  ∧ (∀ n2, (resetGameRuntime n2 g).finalTimeCaptured = false ∧
      (resetGameRuntime n2 g).finalElapsedSec = 0) := by
  refine ⟨?_, ?_, ?_, ?_, ?_⟩
  · intro h1
    unfold captureFinalTimeAndUpdateBest
    rw [h1]
    simp only [Bool.false_eq_true, if_false]
    split_ifs <;> simp
  · intro h1
    unfold captureFinalTimeAndUpdateBest
    rw [h1]
    simp
  · intro i hgo
    unfold loopFn
    split_ifs with hgate
    · rfl
    · rw [loopBody_gameover_eq i { g with lastFrameMs := i.now } hgo]
      unfold stepGameover
      split_ifs <;> rfl
  · intro nowCap coin _hps hm hs1
    unfold missedBall at hm
    unfold updateBall
    split
    · next h => rw [hm] at h; exact HitOutcome.noConfusion h
    · next h => rw [hm] at h; exact HitOutcome.noConfusion h
    · rw [if_pos (by simp only [lostPointState]; omega)]
      refine ⟨rfl, ?_⟩
      intro hcap
      unfold captureFinalTimeAndUpdateBest
      rw [show (lostPointState g).finalTimeCaptured = g.finalTimeCaptured from rfl, hcap]
      simp only [Bool.false_eq_true, if_false]
      split_ifs <;> rfl
  · intro n2
    constructor <;> simp [resetGameRuntime, setSpeedMode]

/-- C3 witness: the final losing tick from one life captures the elapsed
time of that instant and enters GAMEOVER. -/
theorem c3_final_time_witness :
    (updateBall 10000 true gMissLast).1.gameState = GameState.STATE_GAMEOVER ∧
      (updateBall 10000 true gMissLast).1.finalElapsedSec = 9 := by
  have h := (c3_final_time gMissLast 0).2.2.2.1 10000 true
    (by decide) (by decide) (by decide)
  refine ⟨h.1, ?_⟩
  have h2 := h.2 (by decide)
  rw [h2]
  decide

/-- C1: one PLAYING tick of `updateBall`, from any reachable score
(`1 ≤ score`), never increases the score and never drives it negative; a
missed ball decrements it by exactly one and any other outcome leaves it
unchanged; the resulting state is GAMEOVER exactly when the miss brought
the score to zero (so the transition fires on that tick and on no other);
and a run reset restores the score to 10. -/
theorem c1_score_gameover (g : Game) (nowCap : Nat) (coin : Bool)
    (hps : g.gameState = GameState.STATE_PLAYING) (hsc : 1 ≤ g.score) :
    ((updateBall nowCap coin g).1.score ≤ g.score)
  ∧ (0 ≤ (updateBall nowCap coin g).1.score)
  ∧ (missedBall g → (updateBall nowCap coin g).1.score = g.score - 1)
  ∧ (¬ missedBall g → (updateBall nowCap coin g).1.score = g.score)
  ∧ ((updateBall nowCap coin g).1.gameState = GameState.STATE_GAMEOVER ↔
      missedBall g ∧ g.score = 1)
  ∧ (∀ n c g2, (resetGame n c g2).score = 10) := by
  have hres : ∀ n c g2, (resetGame n c g2).score = 10 := by
    intro n c g2
    simp [resetGame, resetGameRuntime, setSpeedMode]
  have hcap := capture_preserves nowCap (lostPointState g)
  unfold missedBall
  unfold updateBall
  split
  · next h =>
    refine ⟨by simp, by simp; omega, ?_, fun _ => by simp, ?_, hres⟩
    · intro hm
      rw [h] at hm
      exact HitOutcome.noConfusion hm
    · simp [h, hps]
  · next h =>
    refine ⟨by simp, by simp; omega, ?_, fun _ => by simp, ?_, hres⟩
    · intro hm
      rw [h] at hm
      exact HitOutcome.noConfusion hm
    · simp [h, hps]
  · next h =>
    by_cases hz : g.score = 1
    · rw [if_pos (by simp only [lostPointState]; omega)]
      refine ⟨?_, ?_, ?_, ?_, ?_, hres⟩
      · dsimp only
        rw [hcap.1]
        simp only [lostPointState]
        omega
      · dsimp only
        rw [hcap.1]
        simp only [lostPointState]
        omega
      · intro _
        dsimp only
        rw [hcap.1]
        simp only [lostPointState]
      · intro hm
        exact absurd h hm
      · simp [h, hz]
    · rw [if_neg (by simp only [lostPointState]; omega)]
      refine ⟨?_, ?_, ?_, ?_, ?_, hres⟩
      · simp only [lostPointState]
        omega
      · simp only [lostPointState]
        omega
      · intro _
        simp only [lostPointState]
      · intro hm
        exact absurd h hm
      · simp [lostPointState, hps, hz]

/-- C1 witness: from one life, a concrete missed ball brings the score to
exactly zero and enters GAMEOVER on that very tick. -/
theorem c1_score_gameover_witness :
    (updateBall 10000 true gMissLast).1.score = 0 ∧
      (updateBall 10000 true gMissLast).1.gameState = GameState.STATE_GAMEOVER := by
  have h := c1_score_gameover gMissLast 10000 true (by decide) (by decide)
  refine ⟨?_, h.2.2.2.2.1.2 ⟨by decide, by decide⟩⟩
  have h3 := h.2.2.1 (by decide)
  rw [h3]
  decide

theorem updateSpeedMode_cases (g : Game) :
    updateSpeedMode g =
      if g.fastMode then
        (if 5 ≤ (g.elapsedSec + 65536 - g.modeStartSec) % 65536
         then { g with fastMode := false, speedMultiplier := 1, modeStartSec := g.elapsedSec }
         else g)
      else
        (if 20 ≤ (g.elapsedSec + 65536 - g.modeStartSec) % 65536
         then { g with fastMode := true, speedMultiplier := 2, modeStartSec := g.elapsedSec }
         else g) := by
  unfold updateSpeedMode setSpeedMode FAST_SEC SLOW_SEC
  by_cases hf : g.fastMode <;>
    by_cases h5 : 5 ≤ (g.elapsedSec + 65536 - g.modeStartSec) % 65536 <;>
    by_cases h20 : 20 ≤ (g.elapsedSec + 65536 - g.modeStartSec) % 65536 <;>
    simp [hf, h5, h20]

/-- C4: starting NORMAL with the phase marker at elapsed 0 and advancing
the elapsed counter one unit per update, the modulator reports FAST
(multiplier 2) exactly when `elapsed % 25 ∈ [20, 25)` — so FAST begins at
elapsed 20, NORMAL returns at elapsed 25, and the 20-NORMAL/5-FAST
pattern repeats with period 25 — and the phase-start marker always equals
the elapsed value of the latest transition (`25⌊k/25⌋` in NORMAL,
`25⌊k/25⌋ + 20` in FAST). -/
theorem c4_speed_cycle (g : Game) (k : Nat) :
    (speedTrace g k).fastMode = decide (20 ≤ k % 25)
  ∧ (speedTrace g k).speedMultiplier = (if 20 ≤ k % 25 then 2 else 1)
  ∧ (speedTrace g k).modeStartSec = 25 * (k / 25) + (if 20 ≤ k % 25 then 20 else 0)
  ∧ (speedTrace g k).elapsedSec = k := by
  induction k with
  | zero => simp [speedTrace, setSpeedMode]
  | succ k ih =>
    obtain ⟨ihf, ihm, ihs, ihe⟩ := ih
    have hstep : speedTrace g (k + 1) =
        updateSpeedMode { speedTrace g k with elapsedSec := k + 1 } := rfl
    rw [hstep, updateSpeedMode_cases]
    dsimp only
    rw [ihf, ihm, ihs]
    by_cases hb : 20 ≤ k % 25
    · simp only [hb, decide_True, if_true]
      by_cases h24 : k % 25 = 24
      · rw [if_pos (by omega)]
        have hlt : ¬ 20 ≤ (k + 1) % 25 := by omega
        refine ⟨by simp [hlt], by simp [hlt], ?_, rfl⟩
        simp only [hlt, if_false]
        omega
      · rw [if_neg (by omega)]
        have hge : 20 ≤ (k + 1) % 25 := by omega
        refine ⟨by simp [hge], by simp [hge], ?_, rfl⟩
        simp only [hge, if_true]
        omega
    · simp only [hb, decide_False, Bool.false_eq_true, if_false]
      by_cases h19 : k % 25 = 19
      · rw [if_pos (by omega)]
        have hge : 20 ≤ (k + 1) % 25 := by omega
        refine ⟨by simp [hge], by simp [hge], ?_, rfl⟩
        simp only [hge, if_true]
        omega
      · rw [if_neg (by omega)]
        have hlt : ¬ 20 ≤ (k + 1) % 25 := by omega
        refine ⟨by simp [hlt], by simp [hlt], ?_, rfl⟩
        simp only [hlt, if_false]
        omega

theorem capture_effects_wall_count (now : Nat) (g : Game) :
    ((captureFinalTimeAndUpdateBest now g).2.countP
      (fun e => decide (e = Effect.cue Cue.wallBounce))) = 0 := by
  unfold captureFinalTimeAndUpdateBest
  split_ifs <;> simp

theorem fabs_nonneg (x : ℚ) : 0 ≤ fabs x := by
  unfold fabs
  split_ifs <;> linarith

/-- C6: a ball whose leading edge crosses the left wall is clamped exactly
onto it (`x - ballR = 0`) with the horizontal velocity made non-negative
(pointing back into the field); symmetrically for the right wall
(`x + ballR = SCREEN_WIDTH`, velocity made non-positive) and the ceiling
(`y - ballR = 0`, vertical velocity made non-negative); a ball touching no
boundary is left unchanged with no cue; and one `updateBall` tick reports
exactly one wall-bounce cue per collision (so two when a side wall and
the ceiling are hit in the same tick). -/
theorem c6_wall_collisions (b : Ball) (nowCap : Nat) (coin : Bool) (g : Game) :
    (b.x - ballR ≤ 0 →
      sideWallBounce b = ({ b with x := ballR, vx := fabs b.vx }, true) ∧
      (sideWallBounce b).1.x - ballR = 0 ∧ 0 ≤ (sideWallBounce b).1.vx)
  ∧ (¬ b.x - ballR ≤ 0 → SCREEN_WIDTH ≤ b.x + ballR →
      sideWallBounce b = ({ b with x := SCREEN_WIDTH - ballR, vx := -fabs b.vx }, true) ∧
      (sideWallBounce b).1.x + ballR = SCREEN_WIDTH ∧ (sideWallBounce b).1.vx ≤ 0)
  ∧ (¬ b.x - ballR ≤ 0 → ¬ SCREEN_WIDTH ≤ b.x + ballR → sideWallBounce b = (b, false))
  ∧ (b.y - ballR ≤ 0 →
      ceilingBounce b = ({ b with y := ballR, vy := fabs b.vy }, true) ∧
      (ceilingBounce b).1.y - ballR = 0 ∧ 0 ≤ (ceilingBounce b).1.vy)
  ∧ (¬ b.y - ballR ≤ 0 → ceilingBounce b = (b, false))
  ∧ ((sideRes g).2 = decide ((movedBall g).x - ballR ≤ 0 ∨
      SCREEN_WIDTH ≤ (movedBall g).x + ballR))
  ∧ ((ceilRes g).2 = decide ((sideRes g).1.y - ballR ≤ 0))
  ∧ ((updateBall nowCap coin g).2.countP
        (fun e => decide (e = Effect.cue Cue.wallBounce)) =
      (if (sideRes g).2 then 1 else 0) + (if (ceilRes g).2 then 1 else 0)) := by
  refine ⟨?_, ?_, ?_, ?_, ?_, ?_, ?_, ?_⟩
  · intro h
    unfold sideWallBounce
    rw [if_pos h]
    exact ⟨rfl, by ring, fabs_nonneg b.vx⟩
  · intro h1 h2
    unfold sideWallBounce
    rw [if_neg h1, if_pos h2]
    refine ⟨rfl, by ring, ?_⟩
    have := fabs_nonneg b.vx
    dsimp only
    linarith
  · intro h1 h2
    unfold sideWallBounce
    rw [if_neg h1, if_neg h2]
  · intro h
    unfold ceilingBounce
    rw [if_pos h]
    exact ⟨rfl, by ring, fabs_nonneg b.vy⟩
  · intro h
    unfold ceilingBounce
    rw [if_neg h]
  · unfold sideRes sideWallBounce
    split_ifs with h1 h2 <;> simp [*]
  · unfold ceilRes ceilingBounce
    split_ifs with h1 <;> simp [h1]
  · unfold updateBall
    split
    · rcases hs : (sideRes g).2 <;> rcases hc : (ceilRes g).2 <;>
        simp [wallCuesOf, hs, hc, List.countP_append, List.countP_cons]
    · rcases hs : (sideRes g).2 <;> rcases hc : (ceilRes g).2 <;>
        simp [wallCuesOf, hs, hc, List.countP_append, List.countP_cons]
    · rcases hs : (sideRes g).2 <;> rcases hc : (ceilRes g).2 <;>
        split_ifs with hsc <;>
        simp_all [wallCuesOf, List.countP_append, List.countP_cons,
          capture_effects_wall_count]

/-- C6 witness: a concrete ball crossing the left wall is clamped to the
boundary with an inward (non-negative) horizontal velocity and a cue. -/
theorem c6_wall_collisions_witness :
    sideWallBounce { x := 1, y := 30, vx := -(17/10), vy := 17/10 } =
      ({ x := 2, y := 30, vx := 17/10, vy := 17/10 }, true) := by
  have h := (c6_wall_collisions { x := 1, y := 30, vx := -(17/10), vy := 17/10 }
    0 true (gMiss)).1 (by norm_num [ballR])
  rw [h.1]
  norm_num [ballR, fabs]

/-- C7: when the ball moves downward, its bottom edge reaches the paddle
line and its centre lies within the paddle span, the hit response is, in
order: vertical velocity reflected upward (`-fabs vy`), horizontal
velocity incremented by the centre offset scaled by the 0.8 gain and then
clamped to ±2.8, and finally both components multiplied by the fixed
1.04 factor (> 1), with the ball re-seated on the paddle line and a
paddle-hit outcome reported; consequently the outgoing vertical velocity
is negative and the outgoing horizontal speed never exceeds 2.8 × 1.04. -/
theorem c7_paddle_response (px : ℚ) (b : Ball) (nowCap : Nat) (coin : Bool) (g : Game)
    (h1 : 0 < b.vy) (h2 : paddleY ≤ b.y + ballR)
    (h3 : px ≤ b.x) (h4 : b.x ≤ px + paddleWidth) :
    (paddleZone px b =
      ({ b with
          y := paddleY - ballR
          vx := (if (14/5 : ℚ) < b.vx + ((b.x - (px + paddleWidth / 2)) / (paddleWidth / 2)) * (4/5)
                 then (14/5 : ℚ)
                 else if b.vx + ((b.x - (px + paddleWidth / 2)) / (paddleWidth / 2)) * (4/5) < -(14/5)
                 then -(14/5)
                 else b.vx + ((b.x - (px + paddleWidth / 2)) / (paddleWidth / 2)) * (4/5)) * (26/25)
          vy := -fabs b.vy * (26/25) }, HitOutcome.hitPaddle))
  ∧ ((paddleZone px b).1.vy < 0)
  ∧ (fabs (paddleZone px b).1.vx ≤ (14/5) * (26/25))
  ∧ ((1 : ℚ) < 26/25)
  ∧ ((paddleRes g).2 = HitOutcome.hitPaddle →
      (updateBall nowCap coin g).2 = wallCuesOf g ++ [Effect.cue Cue.paddleHit]) := by
  have hzone : paddleZone px b =
      ({ b with
          y := paddleY - ballR
          vx := (if (14/5 : ℚ) < b.vx + ((b.x - (px + paddleWidth / 2)) / (paddleWidth / 2)) * (4/5)
                 then (14/5 : ℚ)
                 else if b.vx + ((b.x - (px + paddleWidth / 2)) / (paddleWidth / 2)) * (4/5) < -(14/5)
                 then -(14/5)
                 else b.vx + ((b.x - (px + paddleWidth / 2)) / (paddleWidth / 2)) * (4/5)) * (26/25)
          vy := -fabs b.vy * (26/25) }, HitOutcome.hitPaddle) := by
    unfold paddleZone
    rw [if_pos ⟨h1, h2⟩, if_pos ⟨h3, h4⟩]
    dsimp only
    split_ifs <;> first | rfl | (exfalso; linarith)
  have habs : 0 < fabs b.vy := by
    unfold fabs
    split_ifs <;> linarith
  refine ⟨hzone, ?_, ?_, by norm_num, ?_⟩
  · rw [hzone]
    dsimp only
    nlinarith [habs]
  · rw [hzone]
    dsimp only
    set v1 := b.vx + ((b.x - (px + paddleWidth / 2)) / (paddleWidth / 2)) * (4/5) with hv1
    have hrange : -(14/5 : ℚ) ≤ (if (14/5 : ℚ) < v1 then (14/5 : ℚ)
        else if v1 < -(14/5) then -(14/5) else v1) ∧
        (if (14/5 : ℚ) < v1 then (14/5 : ℚ)
        else if v1 < -(14/5) then -(14/5) else v1) ≤ (14/5 : ℚ) := by
      split_ifs <;> constructor <;> linarith
    unfold fabs
    split_ifs <;> nlinarith [hrange.1, hrange.2]
  · intro hp
    unfold updateBall
    split
    · next h => rw [hp] at h; exact HitOutcome.noConfusion h
    · rfl
    · next h => rw [hp] at h; exact HitOutcome.noConfusion h

/-- C7 witness: a concrete centred downward ball is reflected upward with
the 1.04 acceleration applied to both components. -/
theorem c7_paddle_response_witness :
    paddleZone 52 { x := 64, y := 58, vx := 17/10, vy := 17/10 } =
      ({ x := 64, y := 57, vx := (17/10) * (26/25), vy := -(17/10) * (26/25) },
        HitOutcome.hitPaddle) := by
  have h := (c7_paddle_response 52 { x := 64, y := 58, vx := 17/10, vy := 17/10 }
    0 true gMiss (by norm_num) (by norm_num [paddleY, SCREEN_HEIGHT, paddleHeight, ballR])
    (by norm_num) (by norm_num [paddleWidth])).1
  rw [h]
  norm_num [paddleY, SCREEN_HEIGHT, paddleHeight, ballR, paddleWidth, fabs]

theorem pad2_length_of_lt_100 : ∀ k, k < 100 → (pad2 k).length = 2 := by
  decide

/-- C10 counterexample: at `secs = 6000` (100 minutes) with buffer capacity
`n = 6`, `snprintf` truncates to 5 characters, so the buffer holds
`"100:0"`, not the full `"100:00"` rendering the claim asserts. -/
theorem c10_format_time_cex :
    formatTimeMMSS 6000 6 ≠ some (mmssChars 6000) ∧
      formatTimeMMSS 6000 6 = some ['1', '0', '0', ':', '0'] ∧
      mmssChars 6000 = ['1', '0', '0', ':', '0', '0'] := by
  refine ⟨?_, by decide, by decide⟩
  decide

/-- C10 (amended): the formatter writes the `"%02u:%02u"` rendering of
`(secs / 60, secs % 60)` truncated to at most `n - 1` characters when
`n ≥ 6` — in particular the untruncated rendering whenever the minute
count stays below 100 — writes the empty string when `0 < n < 6`, writes
nothing when `n = 0`, and reports no error in any case (the examples of
the claim hold: 125 gives "02:05" and 0 gives "00:00"). -/
theorem c10_format_time (secs n : Nat) :
    (6 ≤ n → formatTimeMMSS secs n = some ((mmssChars secs).take (n - 1)))
  ∧ (6 ≤ n → secs / 60 < 100 → formatTimeMMSS secs n = some (mmssChars secs))
  ∧ (0 < n → n < 6 → formatTimeMMSS secs n = some [])
  ∧ (n = 0 → formatTimeMMSS secs n = none)
  ∧ (formatTimeMMSS 125 8 = some ['0', '2', ':', '0', '5'])
  ∧ (formatTimeMMSS 0 8 = some ['0', '0', ':', '0', '0']) := by
  refine ⟨?_, ?_, ?_, ?_, by decide, by decide⟩
  · intro h6
    unfold formatTimeMMSS
    rw [if_pos h6]
  · intro h6 hmm
    unfold formatTimeMMSS
    rw [if_pos h6]
    have hlen : (mmssChars secs).length = 5 := by
      unfold mmssChars
      rw [List.length_append]
      rw [pad2_length_of_lt_100 (secs / 60) hmm]
      simp [pad2_length_of_lt_100 (secs % 60) (by omega)]
    rw [List.take_of_length_le (by omega)]
  · intro hpos hlt
    unfold formatTimeMMSS
    rw [if_neg (by omega), if_pos hpos]
  · intro h0
    unfold formatTimeMMSS
    rw [if_neg (by omega), if_neg (by omega)]

/-- C10 witness: at 125 seconds with the 8-byte buffer the repository
uses, the formatter writes the full "02:05" rendering. -/
theorem c10_format_time_witness :
    formatTimeMMSS 125 8 = some (mmssChars 125) :=
  (c10_format_time 125 8).2.1 (by decide) (by decide)

theorem runTrace_append (g : Game) (a b : List TickInput) :
    runTrace g (a ++ b) = runTrace (runTrace g a) b := by
  induction a generalizing g with
  | nil => rfl
  | cons i rest ih =>
      rw [List.cons_append]
      show runTrace (loopFn i g).1 (rest ++ b) = runTrace (runTrace (loopFn i g).1 rest) b
      exact ih (loopFn i g).1

theorem holdResults_armed (ms t0 : Nat) (h : t0 ≠ 0) (ts : List Nat) :
    holdResults ms t0 (ts.map (fun u => (true, true, u))) =
      ts.map (fun u => decide (ms ≤ u - t0)) := by
  induction ts with
  | nil => rfl
  | cons u rest ih =>
      rw [List.map_cons, List.map_cons]
      unfold holdResults bothButtonsHeldStep
      simp only [Bool.and_self, if_true, if_neg h]
      rw [ih]

set_option maxRecDepth 20000 in
theorem cexStep1 : runTrace (bootGame 0 500) cexChunkA = cexS1 := by decide

set_option maxRecDepth 20000 in
theorem cexStep2 : runTrace cexS1 cexChunkB1 = cexS2 := by decide

set_option maxRecDepth 20000 in
theorem cexStep3 : runTrace cexS2 cexChunkB2 = cexS3 := by decide

set_option maxRecDepth 20000 in
theorem cexStep4 : runTrace cexS3 cexChunkB3 = cexS4 := by decide

set_option maxRecDepth 20000 in
theorem cexStep5 : runTrace cexS4 cexChunkB4 = cexS5 := by decide

set_option maxRecDepth 20000 in
theorem cexStep6 : runTrace cexS5 cexChunkB5 = cexS6 := by decide

set_option maxRecDepth 20000 in
theorem cexStep7 : runTrace cexS6 cexChunkC = cexS7 := by decide

set_option maxRecDepth 20000 in
theorem cexStep8 : runTrace cexS7 cexChunkD = cexS8 := by decide

set_option maxRecDepth 20000 in
theorem cexStep9 : runTrace cexS8 cexChunkE1 = cexS9 := by decide

set_option maxRecDepth 20000 in
theorem cexStep10 : runTrace cexS9 cexChunkE2 = cexS10 := by decide

set_option maxRecDepth 20000 in
theorem cexStep11 : runTrace cexS10 cexChunkE3 = cexS11 := by decide

set_option maxRecDepth 20000 in
theorem cexStep12 : runTrace cexS11 cexChunkE4 = cexS12 := by decide

set_option maxRecDepth 20000 in
theorem cexStep13 : runTrace cexS12 cexChunkE5 = cexS13 := by decide

/-- C5 counterexample: a reachable trace from boot on which the restart
fires after both buttons have been held simultaneously for only a single
16 ms frame.  `cexPre` plays two full runs: run 1 is restarted by a
legitimate continuous 900 ms hold, which leaves the `static` hold tracker
of `bothButtonsHeld` armed at t = 4376; run 2 then ends with every input
released (its last PLAYING frame, t = 8652, samples both buttons up), so
after `cexPre` the game sits in GAMEOVER with the stale tracker; the very
next frame (t = 8668) is the first GAMEOVER tick that samples the
buttons, both now pressed, and the stale tracker makes
`millis() - t0 = 4292 ≥ 800`, so the game restarts at once — both inputs
were held simultaneously for at most 16 ms, and the timer was not reset
to zero at the instant the inputs were released, because the releases
happened while the machine was not in GAMEOVER. -/
theorem c5_restart_hold_cex :
    (runTrace (bootGame 0 500) cexPre).gameState = GameState.STATE_GAMEOVER
  ∧ (runTrace (bootGame 0 500) (cexPre ++ [cexTap])).gameState = GameState.STATE_START
  ∧ cexPre.getLast? = some (⟨8652, 8652, false, false, true⟩ : TickInput)
  ∧ cexTap = (⟨8668, 8668, true, true, true⟩ : TickInput) := by
  have hpre : runTrace (bootGame 0 500) cexPre = cexS13 := by
    unfold cexPre
    rw [runTrace_append, runTrace_append, runTrace_append, runTrace_append,
      runTrace_append, runTrace_append, runTrace_append, runTrace_append,
      runTrace_append, runTrace_append, runTrace_append, runTrace_append]
    rw [cexStep1, cexStep2, cexStep3, cexStep4, cexStep5, cexStep6, cexStep7,
      cexStep8, cexStep9, cexStep10, cexStep11, cexStep12, cexStep13]
  refine ⟨by rw [hpre]; rfl, ?_, by decide, by decide⟩
  rw [runTrace_append, hpre]
  decide

/-- C5 (amended): over GAMEOVER ticks the restart hold works as follows —
a tick that samples a released input returns false and resets the tracker
to zero (so one button alone never restarts, and within GAMEOVER a
partial hold does not carry over a release); the GAMEOVER branch moves to
START exactly when the tracker step returns true; and from a released
tracker (as at boot), a run of consecutively-sampled both-held ticks
starting at time `t > 0` returns true exactly on the samples at least
800 ms after `t`.  (The tracker is a process-lifetime static sampled only
in GAMEOVER, so across runs it can stay armed — see the counterexample —
and the 800 ms guarantee only holds from a released tracker.) -/
theorem c5_restart_hold :
    (∀ (t0 : Nat) (l r : Bool) (now : Nat), ¬(l = true ∧ r = true) →
      bothButtonsHeldStep 800 l r now t0 = (0, false))
  ∧ (∀ (g : Game) (i : TickInput), g.gameState = GameState.STATE_GAMEOVER →
      ((loopBody i g).1.gameState = GameState.STATE_START ↔
        (bothButtonsHeldStep 800 i.left i.right i.now g.holdT0).2 = true))
  ∧ (∀ (g : Game) (i : TickInput), g.gameState = GameState.STATE_GAMEOVER →
      (i.left = false ∨ i.right = false) →
      (loopBody i g).1.gameState = GameState.STATE_GAMEOVER ∧
        (loopBody i g).1.holdT0 = 0)
  ∧ (∀ (t : Nat) (ts : List Nat), 0 < t →
      holdResults 800 0 ((true, true, t) :: ts.map (fun u => (true, true, u))) =
        false :: ts.map (fun u => decide (800 ≤ u - t)))
  ∧ ((bootGame 0 500).holdT0 = 0) := by
  have hrel : ∀ (t0 : Nat) (l r : Bool) (now : Nat), ¬(l = true ∧ r = true) →
      bothButtonsHeldStep 800 l r now t0 = (0, false) := by
    intro t0 l r now h
    unfold bothButtonsHeldStep
    rw [if_neg (by rcases l <;> rcases r <;> simp_all)]
  refine ⟨hrel, ?_, ?_, ?_, rfl⟩
  · intro g i hgo
    rw [loopBody_gameover_eq i g hgo]
    unfold stepGameover
    split_ifs with h
    · simp [h]
    · refine ⟨fun hst => ?_, fun ht => absurd ht h⟩
      have hst2 : g.gameState = GameState.STATE_START := hst
      rw [hgo] at hst2
      exact GameState.noConfusion hst2
  · intro g i hgo hside
    rw [loopBody_gameover_eq i g hgo]
    unfold stepGameover
    have hstep : bothButtonsHeldStep 800 i.left i.right i.now g.holdT0 = (0, false) := by
      apply hrel
      rcases hside with h | h <;> simp [h]
    rw [hstep]
    simp [hgo]
  · intro t ts ht
    have h1 : bothButtonsHeldStep 800 true true t 0 = (t, decide (800 ≤ t - t)) := by
      unfold bothButtonsHeldStep
      simp
    unfold holdResults
    dsimp only
    rw [h1]
    dsimp only
    rw [holdResults_armed 800 t (by omega) ts]
    have h2 : decide (800 ≤ t - t) = false := by
      simp [Nat.sub_self]
    rw [h2]

/-- C5 witness: from a released tracker, three consecutive both-held
GAMEOVER samples at 100, 200 and 900 ms produce a restart signal only on
the third — the first sample at least 800 ms into the hold window. -/
theorem c5_restart_hold_witness :
    holdResults 800 0 [(true, true, 100), (true, true, 200), (true, true, 900)] =
      [false, false, true] := by
  have h := c5_restart_hold.2.2.2.1 100 [200, 900] (by decide)
  simpa using h
